import Mathlib

/-!
# Verification of the PR-notifier polling core

Shallow embedding of `src/scripts/pr-notifier.py` (the final, most complete
variant of the script): the check-run Evaluator (`check_and_notify`), the
single-PR tracking loop (`monitor_single_pr`), the repository tracking loop
(`monitor_repository`), URL parsing and the `main` dispatcher.

Network calls (`requests.get`, `requests.post`) are modelled by passing their
results in as explicit parameters: a fetch either yields parsed JSON data or
raises a `requests.exceptions.RequestException`, modelled by `ReqError`.
A notification `POST` either succeeds or raises, modelled by `SendResult`.
Console prints that carry error/decision information are modelled as log
strings; purely informational prints are omitted since no state depends
on them.
-/

deriving instance DecidableEq for Except

namespace PrNotifier

/-- Outcome of the `requests.post` call inside `send_notification`: either the
POST returns, or it raises a `RequestException` carrying an error message. -/
inductive SendResult where
  | ok : SendResult
  | transportError (err : String) : SendResult
deriving DecidableEq

/-- One notification send attempt: the data `send_notification` passes to the
`ntfy.sh` POST (`Title`/body/`Tags` headers). -/
structure Notification where
  title : String
  message : String
  tags : String
deriving DecidableEq

/-- Embeds `send_notification(title, message, tags)`: one POST attempt is made
unconditionally; on success it prints a success line, and a
`RequestException` is caught and only logged (the exception text stands in for
the Python `{e}` interpolation).  The function returns the attempt together
with the log line; it never raises and never retries. -/
def send_notification (title message tags : String) (so : SendResult) :
    Notification × String :=
  (⟨title, message, tags⟩,
   match so with
   | .ok => "✅ Notification sent successfully for: " ++ title
   | .transportError e => "❌ Error sending notification: " ++ e)

/-- One element of the `check_runs` array returned by the check-runs API. -/
structure CheckRun where
  name : String
  status : String
  conclusion : String
deriving DecidableEq

/-- The JSON body of `GET .../commits/{sha}/check-runs`:
`{total_count, check_runs}`. -/
structure CheckData where
  total_count : Nat
  check_runs : List CheckRun
deriving DecidableEq

/-- A `requests.exceptions.RequestException`: either an HTTP error raised by
`raise_for_status()` (with the response status code, used by the 404 check) or
a network-level failure with no response (`e.response` is `None`). -/
inductive ReqError where
  | http (code : Nat) : ReqError
  | network : ReqError
deriving DecidableEq

/-- Embeds `e.response and e.response.status_code == 404` from the
single-PR monitor's exception handler. -/
def is404 : ReqError → Bool
  | .http c => c = 404
  | .network => false

/-- Embeds `run["conclusion"] not in ["success", "skipped", "neutral"]`. -/
def failing_conclusion (c : String) : Bool :=
  !(["success", "skipped", "neutral"].contains c)

/-- What one call of `check_and_notify` produces once its check-runs fetch has
succeeded: the returned pair (conclusion string, completed flag), plus the
notification attempts made and the log lines printed. -/
structure EvalOutput where
  conclusion : String
  completed : Bool
  attempts : List Notification
  logs : List String
deriving DecidableEq

/-- The completed branch of `check_and_notify`: prints the finished line,
invokes `send_notification` exactly once with the title
`PR #{pr_number} {pr_title} Check: {conclusion}` (built by the caller, with
the conclusion literal folded in per branch) and returns `(conclusion, True)`. -/
def mkCompleted (n : Int) (ttl conclusion title message tags : String)
    (so : SendResult) : EvalOutput :=
  ⟨conclusion, true,
   [(send_notification title message tags so).1],
   ["🎉 PR #" ++ toString n ++ " \x27" ++ ttl ++ "\x27 finished with conclusion: " ++ conclusion,
    (send_notification title message tags so).2]⟩

/-- The body of `check_and_notify` after `check_response.json()` succeeded:
classifies the check-run data and, in the completed branch, sends exactly one
notification.  `if failures:` (Python list truthiness) is the `failures ≠ []`
test; the failure message joins every failing run name, double-quoted, with
`", "`, in list order. -/
def eval_checks (n : Int) (ttl : String) (cd : CheckData) (so : SendResult) :
    EvalOutput :=
  if cd.total_count = 0 then ⟨"pending", false, [], []⟩
  else if (cd.check_runs.filter (fun r => r.status = "completed")).length = cd.total_count then
    if ((cd.check_runs.filter (fun r => r.status = "completed")).filter
          (fun r => failing_conclusion r.conclusion)) ≠ [] then
      mkCompleted n ttl "Failure"
        ("PR #" ++ toString n ++ " " ++ ttl ++ " Check: Failure")
        ("Checks failed: " ++ String.intercalate ", "
          (((cd.check_runs.filter (fun r => r.status = "completed")).filter
              (fun r => failing_conclusion r.conclusion)).map
            (fun f => "\"" ++ f.name ++ "\"")))
        "x" so
    else
      mkCompleted n ttl "Success"
        ("PR #" ++ toString n ++ " " ++ ttl ++ " Check: Success")
        ("All " ++ toString cd.total_count ++ " checks passed!") "tada" so
  else ⟨"in_progress", false, [], []⟩

/-- Embeds `check_and_notify(...)`: the check-runs `GET` plus
`raise_for_status()` first (a fetch failure propagates as an exception to the
caller), then the classification body `eval_checks`. -/
def check_and_notify (n : Int) (ttl : String) (fetch : Except ReqError CheckData)
    (so : SendResult) : Except ReqError EvalOutput :=
  match fetch with
  | .error e => .error e
  | .ok cd => .ok (eval_checks n ttl cd so)

/-! ## Single-PR tracker (`monitor_single_pr`) -/

/-- The JSON body of `GET .../pulls/{number}`: the fields the script reads
(`head.sha` flattened to one field, `title`, `state`). -/
structure PrData where
  head_sha : String
  title : String
  state : String
deriving DecidableEq

/-- The loop-local state of `monitor_single_pr`:
`monitored_commit_sha` (initially `None`) and the `notified_shas` set,
modelled as a duplicate-free list. -/
structure SinglePrState where
  monitored_commit_sha : Option String
  notified_shas : List String
deriving DecidableEq

/-- Embeds Python `set.add`: membership-preserving insert. -/
def set_add (l : List String) (x : String) : List String :=
  if l.contains x then l else x :: l

/-- How one iteration of the single-PR loop can end the loop: the PR is no
longer open (`break`), or a `RequestException` escaped the `while` into the
handler below it — classified there as 404 (`not found`) or other API error.
In all three cases `monitor_single_pr` returns. -/
inductive StopKind where
  | closed : StopKind
  | notFound : StopKind
  | apiError : StopKind
deriving DecidableEq

/-- What the loop does after one iteration: keep polling with an updated
state, or stop. -/
inductive CycleNext where
  | cont (s : SinglePrState) : CycleNext
  | stop (k : StopKind) : CycleNext
deriving DecidableEq

/-- Observable result of one iteration of the single-PR loop. -/
structure CycleResult where
  next : CycleNext
  sent : List Notification
  evalCalls : Nat
deriving DecidableEq

/-- One iteration of the `while True` loop in `monitor_single_pr`, with the
two possible network interactions of the iteration passed in: the PR fetch
and the check-runs fetch inside `check_and_notify`.  A `RequestException`
from either fetch propagates to the handler outside the loop, which tests
`e.response.status_code == 404` and returns either way; `evalCalls` counts the
`check_and_notify` invocations. -/
def single_pr_cycle (pn : Int) (s : SinglePrState)
    (prFetch : Except ReqError PrData) (checkFetch : Except ReqError CheckData)
    (so : SendResult) : CycleResult :=
  match prFetch with
  | .error e => ⟨.stop (if is404 e then .notFound else .apiError), [], 0⟩
  | .ok pd =>
    if pd.state ≠ "open" then ⟨.stop .closed, [], 0⟩
    else if s.notified_shas.contains pd.head_sha then
      ⟨.cont ⟨some pd.head_sha, s.notified_shas⟩, [], 0⟩
    else
      match check_and_notify pn pd.title checkFetch so with
      | .error e => ⟨.stop (if is404 e then .notFound else .apiError), [], 1⟩
      | .ok out =>
        ⟨.cont ⟨some pd.head_sha,
           if out.completed then set_add s.notified_shas pd.head_sha
           else s.notified_shas⟩,
         out.attempts, 1⟩

/-- The external inputs one iteration of the single-PR loop can consume. -/
structure CycleInput where
  prFetch : Except ReqError PrData
  checkFetch : Except ReqError CheckData
  send : SendResult
deriving DecidableEq

/-- Observable result of running the single-PR loop over a finite prefix of
cycles: final loop state, all notification attempts in order, number of
Evaluator (`check_and_notify`) invocations, and whether/how the loop stopped
(`none` means it is still polling). -/
structure RunResult where
  final : SinglePrState
  sent : List Notification
  evalCalls : Nat
  stopped : Option StopKind
deriving DecidableEq

/-- Runs the single-PR loop over a list of per-cycle inputs, stopping early
when an iteration ends the loop. -/
def run_cycles (pn : Int) : SinglePrState → List CycleInput → RunResult
  | s, [] => ⟨s, [], 0, none⟩
  | s, i :: rest =>
    match single_pr_cycle pn s i.prFetch i.checkFetch i.send with
    | ⟨.cont s2, ns, k⟩ =>
      let r := run_cycles pn s2 rest
      ⟨r.final, ns ++ r.sent, k + r.evalCalls, r.stopped⟩
    | ⟨.stop sk, ns, k⟩ => ⟨s, ns, k, some sk⟩

/-- The line `monitor_single_pr` prints when the loop ends in each way. -/
def single_pr_stop_log (pn : Int) : StopKind → String
  | .closed => "🚮 PR #" ++ toString pn ++ " is closed or merged. Stopping."
  | .notFound => "❌ PR #" ++ toString pn ++ " not found. It might have been deleted. Stopping."
  | .apiError => "❌ An API error occurred."

/-! ## Repository tracker (`monitor_repository`) -/

/-- One element of the JSON array returned by `GET .../pulls`: the fields the
script reads per open PR. -/
structure PrInfo where
  number : Int
  head_sha : String
  title : String
deriving DecidableEq

/-- One value of the `monitored_prs` dict:
`{"sha": ..., "title": ..., "notified": ...}`. -/
structure Tracked where
  sha : String
  title : String
  notified : Bool
deriving DecidableEq

/-- First value stored under a key in the association-list model of the
`monitored_prs` dict (Python dicts have unique keys, so this is the value). -/
def lookup (k : Int) : List (Int × Tracked) → Option Tracked
  | [] => none
  | e :: rest => if e.1 = k then some e.2 else lookup k rest

/-- Embeds Python dict assignment `monitored_prs[k] = v`: replace in place
when the key is present, append otherwise (dicts preserve insertion order). -/
def dictSet (m : List (Int × Tracked)) (k : Int) (v : Tracked) :
    List (Int × Tracked) :=
  if m.any (fun e => e.1 = k) then
    m.map (fun e => if e.1 = k then (k, v) else e)
  else m ++ [(k, v)]

/-- The body of the `for pr in open_prs_data` loop in `monitor_repository`:
insert a fresh entry for a new PR, reset the entry when the head sha changed,
otherwise only refresh the title. -/
def track_step (m : List (Int × Tracked)) (p : PrInfo) : List (Int × Tracked) :=
  match lookup p.number m with
  | none => dictSet m p.number ⟨p.head_sha, p.title, false⟩
  | some t =>
    if t.sha ≠ p.head_sha then dictSet m p.number ⟨p.head_sha, p.title, false⟩
    else dictSet m p.number ⟨t.sha, p.title, t.notified⟩

/-- The clean-up loop `for pr_number in list(monitored_prs.keys())`: delete
every tracked entry whose number is not among the currently open PRs. -/
def remove_closed (m : List (Int × Tracked)) (current : List Int) :
    List (Int × Tracked) :=
  m.filter (fun e => current.contains e.1)

/-- One reconciliation pass of `monitor_repository`: fold the open-PR list
into the tracked mapping, then delete entries for PRs no longer open
(`current_open_pr_numbers` is the set of numbers in the fetched list). -/
def reconcile (m : List (Int × Tracked)) (prs : List PrInfo) :
    List (Int × Tracked) :=
  remove_closed (prs.foldl track_step m) (prs.map (fun p => p.number))

/-- The evaluation loop `for pr_number, data in monitored_prs.items()`:
skip entries already notified, otherwise invoke `check_and_notify` on the
stored sha; mark the entry notified when it reports completion.  A
`RequestException` from the check-runs fetch propagates to the `except` inside
`while True`, aborting the rest of this cycle's loop (entries already updated
stay updated, later entries are left untouched). -/
def evaluate_tracked (cf : Int → Except ReqError CheckData) (so : SendResult) :
    List (Int × Tracked) → List (Int × Tracked) × List Notification
  | [] => ([], [])
  | (n, t) :: rest =>
    if t.notified then
      let r := evaluate_tracked cf so rest
      ((n, t) :: r.1, r.2)
    else
      match check_and_notify n t.title (cf n) so with
      | .error _ => ((n, t) :: rest, [])
      | .ok out =>
        let t2 := if out.completed then ⟨t.sha, t.title, true⟩ else t
        let r := evaluate_tracked cf so rest
        ((n, t2) :: r.1, out.attempts ++ r.2)

/-- One iteration of the `while True` loop in `monitor_repository`: fetch the
open-PR list (a `RequestException` is caught by the inner handler, logged, and
the cycle is skipped with the mapping unchanged), reconcile, then evaluate
un-notified entries. -/
def repo_cycle (m : List (Int × Tracked))
    (prsFetch : Except ReqError (List PrInfo))
    (cf : Int → Except ReqError CheckData) (so : SendResult) :
    List (Int × Tracked) × List Notification :=
  match prsFetch with
  | .error _ => (m, [])
  | .ok prs => evaluate_tracked cf so (reconcile m prs)

/-! ## URL parsing and the `main` dispatcher

`urllib.parse.urlparse` is an external library call; it is modelled here for
the URL shapes the program accepts — strings of the form `scheme://host/path`
(path extraction) and scheme-less strings, which `urlparse` treats as all
path.  `int(...)` is modelled for plain optionally-signed decimal literals. -/

/-- The characters after the first `"://"`, when one occurs. -/
def after_scheme : List Char → Option (List Char)
  | [] => none
  | ':' :: '/' :: '/' :: rest => some rest
  | _ :: cs => after_scheme cs

/-- The suffix starting at the first `'/'` (the path part of `host/path...`),
or `[]` when there is no `'/'`. -/
def path_of_hostpath : List Char → List Char
  | [] => []
  | '/' :: rest => '/' :: rest
  | _ :: cs => path_of_hostpath cs

/-- Models `urlparse(url).path`: for `scheme://host/path` URLs the `/path`
part (empty when there is no path), otherwise the whole string. -/
def urlparse_path (url : String) : String :=
  match after_scheme url.toList with
  | some rest => String.mk (path_of_hostpath rest)
  | none => url

/-- Embeds Python `s.strip("/")`: remove `'/'` characters from both ends. -/
def strip_slashes (s : String) : String :=
  String.mk (((s.toList.dropWhile (fun c => c = '/')).reverse.dropWhile
    (fun c => c = '/')).reverse)

/-- Splits a character list at every occurrence of a separator character,
like Python `str.split` with a one-character separator. -/
def split_char (sep : Char) : List Char → List (List Char)
  | [] => [[]]
  | c :: cs =>
    match split_char sep cs with
    | [] => [[c]]
    | g :: gs => if c = sep then [] :: g :: gs else (c :: g) :: gs

/-- Embeds `urlparse(url).path.strip("/").split("/")` from `parse_repo_url`
and `parse_pr_url`. -/
def path_parts (url : String) : List String :=
  (split_char '/' (strip_slashes (urlparse_path url)).toList).map String.mk

/-- Does `pat` occur at the start of `l`? -/
def list_starts_with : List Char → List Char → Bool
  | [], _ => true
  | _ :: _, [] => false
  | p :: ps, c :: cs => p = c && list_starts_with ps cs

/-- Does `pat` occur anywhere in `l`?  Models Python `pat in s`. -/
def contains_sub (pat : List Char) : List Char → Bool
  | [] => list_starts_with pat []
  | c :: cs => list_starts_with pat (c :: cs) || contains_sub pat cs

/-- Embeds `is_pr_url(url)`: `"/pull/" in urlparse(url).path`. -/
def is_pr_url (url : String) : Bool :=
  contains_sub "/pull/".toList (urlparse_path url).toList

/-- Embeds `path_parts[1].replace(".git", "")`: removes every (left-to-right,
non-overlapping) occurrence of `".git"`. -/
def drop_dot_git : List Char → List Char
  | '.' :: 'g' :: 'i' :: 't' :: rest => drop_dot_git rest
  | c :: cs => c :: drop_dot_git cs
  | [] => []

/-- Decimal digits to a number; `none` on a non-digit.  The empty string is
rejected by `py_int` below. -/
def parse_nat_aux : List Char → Nat → Option Nat
  | [], acc => some acc
  | c :: cs, acc =>
    if c.isDigit then parse_nat_aux cs (acc * 10 + (c.toNat - '0'.toNat))
    else none

/-- Models Python `int(s)` (raising `ValueError` is `none`) for plain
optionally-signed decimal literals. -/
def py_int (s : String) : Option Int :=
  match s.toList with
  | [] => none
  | '-' :: [] => none
  | '-' :: c :: cs => (parse_nat_aux (c :: cs) 0).map (fun k => -(k : Int))
  | '+' :: [] => none
  | '+' :: c :: cs => (parse_nat_aux (c :: cs) 0).map (fun k => (k : Int))
  | cs => (parse_nat_aux cs 0).map (fun k => (k : Int))

/-- Embeds `parse_repo_url(url)`: owner and repo from the first two path
segments (`none` is the `(None, None)` return). -/
def parse_repo_url (url : String) : Option (String × String) :=
  match path_parts url with
  | owner :: repo :: _ => some (owner, String.mk (drop_dot_git repo.toList))
  | _ => none

/-- Embeds `parse_pr_url(url)`: owner, repo and PR number from a path of the
form `owner/repo/pull/{number}`; a `ValueError` from `int(...)` is caught and
yields the `(None, None, None)` return, modelled as `none`. -/
def parse_pr_url (url : String) : Option (String × String × Int) :=
  match path_parts url with
  | owner :: repo :: seg :: num :: _ =>
    if seg = "pull" then
      match py_int num with
      | some k => some (owner, repo, k)
      | none => none
    else none
  | _ => none

/-- The parse-plus-guard at the top of `monitor_single_pr`: `parse_pr_url`
followed by `if not all([owner, repo, pr_number])` — a parsed reference is
valid only when owner and repo are non-empty and the number is non-zero
(Python truthiness). -/
def pr_ref (url : String) : Option (String × String × Int) :=
  match parse_pr_url url with
  | some (o, r, k) => if o = "" ∨ r = "" ∨ k = 0 then none else some (o, r, k)
  | none => none

/-- The parse-plus-guard at the top of `monitor_repository`: `parse_repo_url`
followed by `if not all([owner, repo])`. -/
def repo_ref (url : String) : Option (String × String) :=
  match parse_repo_url url with
  | some (o, r) => if o = "" ∨ r = "" then none else some (o, r)
  | none => none

/-- Python truthiness of an optional string (`os.getenv` result or parsed
argument): `None` and `""` are falsy. -/
def truthy : Option String → Bool
  | none => false
  | some s => s ≠ ""

/-- How `main()` can leave the configuration/dispatch phase: `sys.exit(1)` on
a missing credential, topic, or URL; an invalid-URL report followed by a plain
return from the monitor function (after which `main` falls through and the
process exits normally); or entry into one of the two tracking loops. -/
inductive MainOutcome where
  | configExit (msg : String) : MainOutcome
  | invalidUrl (msg : String) : MainOutcome
  | runSinglePr (owner repo : String) (number : Int) : MainOutcome
  | runRepo (owner repo : String) : MainOutcome
deriving DecidableEq

/-- Embeds `main()` up to the point where a tracking loop would start: the
three fail-fast configuration checks, target-URL resolution
(`args.url if args.url else REPO_URL_FROM_ENV`), the `is_pr_url` dispatch, and
the URL-validity guard at the top of the chosen monitor function. -/
def main_dispatch (token topic env_url arg_url : Option String) : MainOutcome :=
  if truthy token = false then
    .configExit "❌ Error: GITHUB_TOKEN not found. Please set it in your environment or a .env file."
  else if truthy topic = false then
    .configExit "❌ Error: NTFY_TOPIC not found. Please set it in your environment or a .env file."
  else
    match (if truthy arg_url then arg_url else env_url) with
    | none => .configExit "❌ Error: No URL provided via command line or in .env file (REPO_URL)."
    | some t =>
      if t = "" then
        .configExit "❌ Error: No URL provided via command line or in .env file (REPO_URL)."
      else if is_pr_url t then
        match pr_ref t with
        | some (o, r, k) => .runSinglePr o r k
        | none => .invalidUrl ("❌ Error: Invalid GitHub PR URL: " ++ t)
      else
        match repo_ref t with
        | some (o, r) => .runRepo o r
        | none => .invalidUrl ("❌ Error: Invalid GitHub Repo URL: " ++ t)

/-- The process exit code each dispatch outcome leads to: `sys.exit(1)` for
configuration errors; a normal end of `main` (exit code 0) when a monitor
function rejects the URL and returns; `none` while a tracking loop runs. -/
def exit_code : MainOutcome → Option Nat
  | .configExit _ => some 1
  | .invalidUrl _ => some 0
  | .runSinglePr _ _ _ => none
  | .runRepo _ _ => none

/-- Whether the dispatch outcome entered a tracking loop. -/
def enters_loop : MainOutcome → Bool
  | .runSinglePr _ _ _ => true
  | .runRepo _ _ => true
  | _ => false

/-! ## Helper lemmas -/

/-- When the zero-check and the all-completed length check pass,
`eval_checks` reaches the completed (notifying) branch. -/
theorem eval_checks_completed_shape (n : Int) (ttl : String) (cd : CheckData)
    (so : SendResult) (h0 : cd.total_count ≠ 0)
    (hc : (cd.check_runs.filter (fun r => r.status = "completed")).length = cd.total_count) :
    eval_checks n ttl cd so =
      if ((cd.check_runs.filter (fun r => r.status = "completed")).filter
            (fun r => failing_conclusion r.conclusion)) ≠ [] then
        mkCompleted n ttl "Failure"
          ("PR #" ++ toString n ++ " " ++ ttl ++ " Check: Failure")
          ("Checks failed: " ++ String.intercalate ", "
            (((cd.check_runs.filter (fun r => r.status = "completed")).filter
                (fun r => failing_conclusion r.conclusion)).map
              (fun f => "\"" ++ f.name ++ "\"")))
          "x" so
      else
        mkCompleted n ttl "Success"
          ("PR #" ++ toString n ++ " " ++ ttl ++ " Check: Success")
          ("All " ++ toString cd.total_count ++ " checks passed!") "tada" so := by
  unfold eval_checks
  rw [if_neg h0, if_pos hc]

/-- In the completed branch the Evaluator always reports completion. -/
theorem eval_checks_completed_true (n : Int) (ttl : String) (cd : CheckData)
    (so : SendResult) (h0 : cd.total_count ≠ 0)
    (hc : (cd.check_runs.filter (fun r => r.status = "completed")).length = cd.total_count) :
    (eval_checks n ttl cd so).completed = true := by
  rw [eval_checks_completed_shape n ttl cd so h0 hc]
  split <;> rfl

/-- When every check run is completed, the status filter is the identity. -/
theorem filter_completed_of_all (cd : CheckData)
    (hall : ∀ r ∈ cd.check_runs, r.status = "completed") :
    cd.check_runs.filter (fun r => r.status = "completed") = cd.check_runs :=
  List.filter_eq_self.mpr (fun a ha => by simpa using hall a ha)

/-! ## Claims about the Evaluator -/

/-- C3: for `total_count = 0` the Evaluator returns `pending` with
notified-flag `false` and makes no notification attempt; when fewer check
runs are completed than `total_count` it returns `in_progress` with
notified-flag `false` and makes no notification attempt. -/
theorem c3_theorem (n : Int) (ttl : String) (cd : CheckData) (so : SendResult) :
    (cd.total_count = 0 →
      check_and_notify n ttl (.ok cd) so = .ok ⟨"pending", false, [], []⟩)
    ∧ ((cd.check_runs.filter (fun r => r.status = "completed")).length < cd.total_count →
      check_and_notify n ttl (.ok cd) so = .ok ⟨"in_progress", false, [], []⟩) := by
  constructor
  · intro h
    simp [check_and_notify, eval_checks, h]
  · intro h
    have h0 : cd.total_count ≠ 0 := by omega
    have h1 : (cd.check_runs.filter (fun r => r.status = "completed")).length
        ≠ cd.total_count := by omega
    simp [check_and_notify, eval_checks, h0, h1]

/-- Witness for C3 at concrete inputs: no runs yet, and one of two runs
completed. -/
theorem c3_witness :
    check_and_notify 1 "t" (.ok ⟨0, []⟩) .ok = .ok ⟨"pending", false, [], []⟩
    ∧ check_and_notify 1 "t"
        (.ok ⟨2, [⟨"a", "completed", "success"⟩, ⟨"b", "in_progress", ""⟩]⟩) .ok
      = .ok ⟨"in_progress", false, [], []⟩ :=
  ⟨(c3_theorem 1 "t" ⟨0, []⟩ .ok).1 rfl,
   (c3_theorem 1 "t" ⟨2, [⟨"a", "completed", "success"⟩, ⟨"b", "in_progress", ""⟩]⟩ .ok).2
     (by decide)⟩

/-- C4: when all check runs are completed and at least one conclusion is not
in `{success, skipped, neutral}`, the Evaluator returns `Failure` with
notified-flag `true` and makes exactly one notification attempt, whose body
lists every failing run name, double-quoted, comma-joined, in API order, with
tag `x`. -/
theorem c4_theorem (n : Int) (ttl : String) (cd : CheckData) (so : SendResult)
    (hlen : cd.total_count = cd.check_runs.length)
    (hall : ∀ r ∈ cd.check_runs, r.status = "completed")
    (hfail : ∃ r ∈ cd.check_runs, failing_conclusion r.conclusion = true) :
    ∃ out, check_and_notify n ttl (.ok cd) so = .ok out
      ∧ out.conclusion = "Failure" ∧ out.completed = true
      ∧ out.attempts = [⟨"PR #" ++ toString n ++ " " ++ ttl ++ " Check: Failure",
          "Checks failed: " ++ String.intercalate ", "
            ((cd.check_runs.filter (fun r => failing_conclusion r.conclusion)).map
              (fun f => "\"" ++ f.name ++ "\"")), "x"⟩] := by
  have hfe := filter_completed_of_all cd hall
  have hne : cd.check_runs.filter (fun r => failing_conclusion r.conclusion) ≠ [] := by
    obtain ⟨r, hr, hfr⟩ := hfail
    exact List.ne_nil_of_mem (List.mem_filter.mpr ⟨hr, hfr⟩)
  have h0 : cd.total_count ≠ 0 := by
    intro h
    rw [h, eq_comm, List.length_eq_zero] at hlen
    rw [hlen] at hne
    simp at hne
  have hc : (cd.check_runs.filter (fun r => r.status = "completed")).length
      = cd.total_count := by rw [hfe, hlen]
  refine ⟨mkCompleted n ttl "Failure"
      ("PR #" ++ toString n ++ " " ++ ttl ++ " Check: Failure")
      ("Checks failed: " ++ String.intercalate ", "
        ((cd.check_runs.filter (fun r => failing_conclusion r.conclusion)).map
          (fun f => "\"" ++ f.name ++ "\""))) "x" so, ?_, rfl, rfl, ?_⟩
  · rw [show check_and_notify n ttl (.ok cd) so = .ok (eval_checks n ttl cd so) from rfl,
      eval_checks_completed_shape n ttl cd so h0 hc, hfe, if_pos hne]
  · rfl

/-- Witness for C4: the spec scenario with one failing run named `lint` —
the body is `Checks failed: "lint"`. -/
theorem c4_witness :
    ∃ out, check_and_notify 42 "Fix bug" (.ok ⟨1, [⟨"lint", "completed", "failure"⟩]⟩) .ok
        = .ok out
      ∧ out.conclusion = "Failure" ∧ out.completed = true
      ∧ out.attempts = [⟨"PR #42 Fix bug Check: Failure",
          "Checks failed: \"lint\"", "x"⟩] := by
  obtain ⟨out, h1, h2, h3, h4⟩ := c4_theorem 42 "Fix bug"
    ⟨1, [⟨"lint", "completed", "failure"⟩]⟩ .ok (by decide) (by decide) (by decide)
  exact ⟨out, h1, h2, h3, by rw [h4]; decide⟩

/-- C5: when all check runs are completed and every conclusion is in
`{success, skipped, neutral}`, the Evaluator returns `Success` with
notified-flag `true` and makes exactly one notification attempt whose title
embeds the PR number (`PR #{n} ...`), whose body is
`All {total_count} checks passed!`, with tag `tada`. -/
theorem c5_theorem (n : Int) (ttl : String) (cd : CheckData) (so : SendResult)
    (hpos : cd.total_count ≠ 0)
    (hlen : cd.total_count = cd.check_runs.length)
    (hall : ∀ r ∈ cd.check_runs, r.status = "completed")
    (hok : ∀ r ∈ cd.check_runs, (["success", "skipped", "neutral"].contains r.conclusion) = true) :
    ∃ out, check_and_notify n ttl (.ok cd) so = .ok out
      ∧ out.conclusion = "Success" ∧ out.completed = true
      ∧ out.attempts = [⟨"PR #" ++ toString n ++ " " ++ ttl ++ " Check: Success",
          "All " ++ toString cd.total_count ++ " checks passed!", "tada"⟩] := by
  have hfe := filter_completed_of_all cd hall
  have hc : (cd.check_runs.filter (fun r => r.status = "completed")).length
      = cd.total_count := by rw [hfe, hlen]
  have hnil : cd.check_runs.filter (fun r => failing_conclusion r.conclusion) = [] := by
    rw [List.filter_eq_nil_iff]
    intro r hr
    simp only [failing_conclusion, hok r hr]
    decide
  refine ⟨mkCompleted n ttl "Success"
      ("PR #" ++ toString n ++ " " ++ ttl ++ " Check: Success")
      ("All " ++ toString cd.total_count ++ " checks passed!") "tada" so, ?_, rfl, rfl, ?_⟩
  · rw [show check_and_notify n ttl (.ok cd) so = .ok (eval_checks n ttl cd so) from rfl,
      eval_checks_completed_shape n ttl cd so hpos hc, hfe, hnil, if_neg (by simp)]
  · rfl

/-- Witness for C5: the spec scenario — PR #42 `Fix bug`, two completed
successful runs. -/
theorem c5_witness :
    ∃ out, check_and_notify 42 "Fix bug"
        (.ok ⟨2, [⟨"a", "completed", "success"⟩, ⟨"b", "completed", "success"⟩]⟩) .ok
        = .ok out
      ∧ out.conclusion = "Success" ∧ out.completed = true
      ∧ out.attempts = [⟨"PR #42 Fix bug Check: Success", "All 2 checks passed!", "tada"⟩] := by
  obtain ⟨out, h1, h2, h3, h4⟩ := c5_theorem 42 "Fix bug"
    ⟨2, [⟨"a", "completed", "success"⟩, ⟨"b", "completed", "success"⟩]⟩ .ok
    (by decide) (by decide) (by decide) (by decide)
  exact ⟨out, h1, h2, h3, by rw [h4]; decide⟩

/-- C10: for `total_count > 0` the Evaluator reaches the notifying branch only
when the number of `completed` runs in the returned list equals
`total_count`; in particular a truncated list in which every run is completed
but fewer runs are listed than `total_count` yields `in_progress` with
notified-flag `false` and no notification attempt. -/
theorem c10_theorem (n : Int) (ttl : String) (cd : CheckData) (so : SendResult)
    (hpos : 0 < cd.total_count) :
    (∀ out, check_and_notify n ttl (.ok cd) so = .ok out → out.completed = true →
      (cd.check_runs.filter (fun r => r.status = "completed")).length = cd.total_count)
    ∧ ((∀ r ∈ cd.check_runs, r.status = "completed") →
        cd.check_runs.length < cd.total_count →
      check_and_notify n ttl (.ok cd) so = .ok ⟨"in_progress", false, [], []⟩) := by
  have h0 : cd.total_count ≠ 0 := by omega
  constructor
  · intro out hout hcomp
    by_cases hlen : (cd.check_runs.filter (fun r => r.status = "completed")).length
        = cd.total_count
    · exact hlen
    · exfalso
      rw [show check_and_notify n ttl (.ok cd) so = .ok (eval_checks n ttl cd so) from rfl]
        at hout
      simp only [Except.ok.injEq] at hout
      rw [← hout] at hcomp
      unfold eval_checks at hcomp
      rw [if_neg h0, if_neg hlen] at hcomp
      simp at hcomp
  · intro hall hlt
    have hfe := filter_completed_of_all cd hall
    have h1 : (cd.check_runs.filter (fun r => r.status = "completed")).length
        ≠ cd.total_count := by rw [hfe]; omega
    simp [check_and_notify, eval_checks, h0, h1]

/-- Witness for C10: `total_count = 2` but only one (completed) run listed. -/
theorem c10_witness :
    (∀ out, check_and_notify 9 "t" (.ok ⟨2, [⟨"a", "completed", "success"⟩]⟩) .ok
        = .ok out → out.completed = true →
      ((([⟨"a", "completed", "success"⟩] : List CheckRun)).filter
          (fun r => r.status = "completed")).length = 2)
    ∧ ((∀ r ∈ ([⟨"a", "completed", "success"⟩] : List CheckRun), r.status = "completed") →
        ([⟨"a", "completed", "success"⟩] : List CheckRun).length < 2 →
      check_and_notify 9 "t" (.ok ⟨2, [⟨"a", "completed", "success"⟩]⟩) .ok
        = .ok ⟨"in_progress", false, [], []⟩) :=
  c10_theorem 9 "t" ⟨2, [⟨"a", "completed", "success"⟩]⟩ .ok (by decide)

/-- C9: a notification send failure is only logged — the Evaluator output
(conclusion, completed flag, the single send attempt) is the same as on a
successful send, the send-error line appears in the logs, the single-PR
tracker still adds the sha to `notifiedShas`, and the repository tracker
still sets `notified` — and exactly one attempt is made (no retry). -/
theorem c9_theorem (pn n : Int) (ttl em : String) (cd : CheckData)
    (s : SinglePrState) (pd : PrData) (t : Tracked)
    (h0 : cd.total_count ≠ 0)
    (hc : (cd.check_runs.filter (fun r => r.status = "completed")).length = cd.total_count)
    (hopen : pd.state = "open")
    (hnm : s.notified_shas.contains pd.head_sha = false)
    (htn : t.notified = false) :
    (eval_checks n ttl cd (.transportError em)).completed = true
    ∧ (eval_checks n ttl cd (.transportError em)).conclusion
        = (eval_checks n ttl cd .ok).conclusion
    ∧ (eval_checks n ttl cd (.transportError em)).attempts
        = (eval_checks n ttl cd .ok).attempts
    ∧ (eval_checks n ttl cd (.transportError em)).attempts.length = 1
    ∧ ("❌ Error sending notification: " ++ em)
        ∈ (eval_checks n ttl cd (.transportError em)).logs
    ∧ single_pr_cycle pn s (.ok pd) (.ok cd) (.transportError em)
        = ⟨.cont ⟨some pd.head_sha, set_add s.notified_shas pd.head_sha⟩,
           (eval_checks pn pd.title cd (.transportError em)).attempts, 1⟩
    ∧ (evaluate_tracked (fun _ => .ok cd) (.transportError em) [(n, t)]).1
        = [(n, ⟨t.sha, t.title, true⟩)] := by
  have hsh := fun (m : Int) (tl : String) (so : SendResult) =>
    eval_checks_completed_shape m tl cd so h0 hc
  have hcompl := fun (m : Int) (tl : String) (so : SendResult) =>
    eval_checks_completed_true m tl cd so h0 hc
  refine ⟨hcompl n ttl _, ?_, ?_, ?_, ?_, ?_, ?_⟩
  · rw [hsh n ttl (.transportError em), hsh n ttl .ok]
    split <;> rfl
  · rw [hsh n ttl (.transportError em), hsh n ttl .ok]
    split <;> rfl
  · rw [hsh n ttl (.transportError em)]
    split <;> rfl
  · rw [hsh n ttl (.transportError em)]
    split <;> simp [mkCompleted, send_notification]
  · simp only [single_pr_cycle, hopen, check_and_notify, hnm,
      hcompl pn pd.title (.transportError em)]
    simp
  · simp only [evaluate_tracked, htn, check_and_notify,
      hcompl n t.title (.transportError em)]
    simp

/-- Witness for C9 at a concrete completed commit with a failed send. -/
theorem c9_witness :
    (eval_checks 5 "T" ⟨1, [⟨"build", "completed", "success"⟩]⟩
        (.transportError "timeout")).completed = true
    ∧ (eval_checks 5 "T" ⟨1, [⟨"build", "completed", "success"⟩]⟩
        (.transportError "timeout")).conclusion
      = (eval_checks 5 "T" ⟨1, [⟨"build", "completed", "success"⟩]⟩ .ok).conclusion
    ∧ (eval_checks 5 "T" ⟨1, [⟨"build", "completed", "success"⟩]⟩
        (.transportError "timeout")).attempts
      = (eval_checks 5 "T" ⟨1, [⟨"build", "completed", "success"⟩]⟩ .ok).attempts
    ∧ (eval_checks 5 "T" ⟨1, [⟨"build", "completed", "success"⟩]⟩
        (.transportError "timeout")).attempts.length = 1
    ∧ ("❌ Error sending notification: " ++ "timeout")
        ∈ (eval_checks 5 "T" ⟨1, [⟨"build", "completed", "success"⟩]⟩
            (.transportError "timeout")).logs
    ∧ single_pr_cycle 5 ⟨none, []⟩ (.ok ⟨"abc", "T", "open"⟩)
        (.ok ⟨1, [⟨"build", "completed", "success"⟩]⟩) (.transportError "timeout")
      = ⟨.cont ⟨some "abc", set_add [] "abc"⟩,
         (eval_checks 5 "T" ⟨1, [⟨"build", "completed", "success"⟩]⟩
           (.transportError "timeout")).attempts, 1⟩
    ∧ (evaluate_tracked (fun _ => .ok ⟨1, [⟨"build", "completed", "success"⟩]⟩)
        (.transportError "timeout") [(5, ⟨"abc", "T", false⟩)]).1
      = [(5, ⟨"abc", "T", true⟩)] :=
  c9_theorem 5 5 "T" "timeout" ⟨1, [⟨"build", "completed", "success"⟩]⟩
    ⟨none, []⟩ ⟨"abc", "T", "open"⟩ ⟨"abc", "T", false⟩
    (by decide) (by decide) rfl rfl rfl

/-- C6: once the tracked head commit sha is in `notifiedShas`, any number of
further cycles that fetch the same open PR send no notification, never invoke
the Evaluator, never stop the loop, and leave `notifiedShas` unchanged. -/
theorem c6_theorem (pn : Int) (s : SinglePrState) (pd : PrData)
    (inputs : List CycleInput)
    (hopen : pd.state = "open")
    (hmem : s.notified_shas.contains pd.head_sha = true)
    (hall : ∀ i ∈ inputs, i.prFetch = .ok pd) :
    (run_cycles pn s inputs).sent = []
    ∧ (run_cycles pn s inputs).evalCalls = 0
    ∧ (run_cycles pn s inputs).stopped = none
    ∧ (run_cycles pn s inputs).final.notified_shas = s.notified_shas := by
  induction inputs generalizing s with
  | nil => exact ⟨rfl, rfl, rfl, rfl⟩
  | cons i rest ih =>
    have hpf : i.prFetch = .ok pd := hall i (by simp)
    have hcyc : single_pr_cycle pn s i.prFetch i.checkFetch i.send
        = ⟨.cont ⟨some pd.head_sha, s.notified_shas⟩, [], 0⟩ := by
      rw [hpf]
      simp only [single_pr_cycle, hopen, hmem]
      simp
    have ihr := ih ⟨some pd.head_sha, s.notified_shas⟩ hmem
      (fun j hj => hall j (by simp [hj]))
    unfold run_cycles
    rw [hcyc]
    simpa using ihr

/-- Witness for C6: two further cycles on an already-notified sha. -/
theorem c6_witness :
    (run_cycles 3 ⟨some "abc", ["abc"]⟩
      [⟨.ok ⟨"abc", "T", "open"⟩, .error .network, .ok⟩,
       ⟨.ok ⟨"abc", "T", "open"⟩, .ok ⟨0, []⟩, .transportError "x"⟩]).sent = []
    ∧ (run_cycles 3 ⟨some "abc", ["abc"]⟩
        [⟨.ok ⟨"abc", "T", "open"⟩, .error .network, .ok⟩,
         ⟨.ok ⟨"abc", "T", "open"⟩, .ok ⟨0, []⟩, .transportError "x"⟩]).evalCalls = 0
    ∧ (run_cycles 3 ⟨some "abc", ["abc"]⟩
        [⟨.ok ⟨"abc", "T", "open"⟩, .error .network, .ok⟩,
         ⟨.ok ⟨"abc", "T", "open"⟩, .ok ⟨0, []⟩, .transportError "x"⟩]).stopped = none
    ∧ (run_cycles 3 ⟨some "abc", ["abc"]⟩
        [⟨.ok ⟨"abc", "T", "open"⟩, .error .network, .ok⟩,
         ⟨.ok ⟨"abc", "T", "open"⟩, .ok ⟨0, []⟩, .transportError "x"⟩]).final.notified_shas
      = ["abc"] :=
  c6_theorem 3 ⟨some "abc", ["abc"]⟩ ⟨"abc", "T", "open"⟩
    [⟨.ok ⟨"abc", "T", "open"⟩, .error .network, .ok⟩,
     ⟨.ok ⟨"abc", "T", "open"⟩, .ok ⟨0, []⟩, .transportError "x"⟩]
    rfl (by decide) (by decide)

/-- C1 counterexample: with a non-404 transport error (HTTP 500) on the PR
fetch of the first cycle, the single-PR loop does not continue to the next
cycle — it stops with the API-error outcome (the `except` handler sits
outside the `while` loop, so `monitor_single_pr` returns). -/
theorem c1_counterexample :
    (run_cycles 7 ⟨none, []⟩ [⟨.error (.http 500), .error .network, .ok⟩]).stopped
      = some .apiError
    ∧ (run_cycles 7 ⟨none, []⟩ [⟨.error (.http 500), .error .network, .ok⟩]).stopped
      ≠ none := by
  decide

/-- C1 as amended: in single-PR mode, a cycle whose pull-request fetch fails
with a transport error that is not a not-found (404-class) error logs the
error and terminates the tracking loop — it does not continue to the next
cycle, no notification is sent and the Evaluator is not invoked. -/
theorem c1_theorem (pn : Int) (s : SinglePrState) (e : ReqError)
    (cf : Except ReqError CheckData) (so : SendResult) (rest : List CycleInput)
    (h : is404 e = false) :
    run_cycles pn s (⟨.error e, cf, so⟩ :: rest) = ⟨s, [], 0, some .apiError⟩
    ∧ single_pr_stop_log pn .apiError = "❌ An API error occurred." := by
  refine ⟨?_, rfl⟩
  simp only [run_cycles, single_pr_cycle, h]
  simp

/-- Witness for C1 as amended, at an HTTP 503 error with further cycle input
pending. -/
theorem c1_witness :
    run_cycles 7 ⟨some "abc", ["abc"]⟩
      [⟨.error (.http 503), .error .network, .ok⟩,
       ⟨.ok ⟨"abc", "T", "open"⟩, .ok ⟨0, []⟩, .ok⟩]
      = ⟨⟨some "abc", ["abc"]⟩, [], 0, some .apiError⟩
    ∧ single_pr_stop_log 7 .apiError = "❌ An API error occurred." :=
  c1_theorem 7 ⟨some "abc", ["abc"]⟩ (.http 503) (.error .network) .ok
    [⟨.ok ⟨"abc", "T", "open"⟩, .ok ⟨0, []⟩, .ok⟩] (by decide)

/-- C2 counterexample: with credentials and topic set and the unparseable
target URL `https://github.com` (no owner/repo path), the program reports the
invalid-URL error and enters no loop, but the process exit code is 0 — not
non-zero as claimed (`monitor_repository` just returns and `main` falls
through). -/
theorem c2_counterexample :
    main_dispatch (some "tok") (some "topic") none (some "https://github.com")
      = .invalidUrl "❌ Error: Invalid GitHub Repo URL: https://github.com"
    ∧ exit_code (main_dispatch (some "tok") (some "topic") none
        (some "https://github.com")) = some 0
    ∧ enters_loop (main_dispatch (some "tok") (some "topic") none
        (some "https://github.com")) = false := by
  decide

/-- C2 as amended: for every target URL that cannot be parsed into a valid
repository or pull-request reference (with credential and topic set), the
program reports the error and enters no tracking loop, and the process exits
with code 0; a non-zero exit occurs only for a missing credential, topic or
URL. -/
theorem c2_theorem (token topic env_url arg_url : Option String) (t : String)
    (htok : truthy token = true) (htop : truthy topic = true)
    (htarget : (if truthy arg_url then arg_url else env_url) = some t)
    (ht : t ≠ "")
    (hbad1 : is_pr_url t = true → pr_ref t = none)
    (hbad2 : is_pr_url t = false → repo_ref t = none) :
    ∃ msg, main_dispatch token topic env_url arg_url = .invalidUrl msg
      ∧ exit_code (main_dispatch token topic env_url arg_url) = some 0
      ∧ enters_loop (main_dispatch token topic env_url arg_url) = false := by
  have hd : main_dispatch token topic env_url arg_url =
      (if is_pr_url t then
        match pr_ref t with
        | some (o, r, k) => .runSinglePr o r k
        | none => .invalidUrl ("❌ Error: Invalid GitHub PR URL: " ++ t)
      else
        match repo_ref t with
        | some (o, r) => .runRepo o r
        | none => .invalidUrl ("❌ Error: Invalid GitHub Repo URL: " ++ t)) := by
    unfold main_dispatch
    rw [htok, htop, htarget]
    simp [ht]
  by_cases hp : is_pr_url t
  · rw [hd, if_pos hp, hbad1 hp]
    exact ⟨_, rfl, rfl, rfl⟩
  · rw [hd, if_neg hp, hbad2 (by simpa using hp)]
    exact ⟨_, rfl, rfl, rfl⟩

/-- Witness for C2 as amended: the URL `https://github.com/x/y/pull/zzz`
(non-numeric PR number) with token and topic set. -/
theorem c2_witness :
    ∃ msg, main_dispatch (some "tok") (some "topic") (some "ignored")
        (some "https://github.com/x/y/pull/zzz") = .invalidUrl msg
      ∧ exit_code (main_dispatch (some "tok") (some "topic") (some "ignored")
          (some "https://github.com/x/y/pull/zzz")) = some 0
      ∧ enters_loop (main_dispatch (some "tok") (some "topic") (some "ignored")
          (some "https://github.com/x/y/pull/zzz")) = false :=
  c2_theorem (some "tok") (some "topic") (some "ignored")
    (some "https://github.com/x/y/pull/zzz") "https://github.com/x/y/pull/zzz"
    (by decide) (by decide) (by decide) (by decide) (by decide) (by decide)

/-! ## Lookup lemmas for the repository tracker -/

/-- Appending a fresh key at the end makes it visible to `lookup`. -/
theorem lookup_append_right (k : Int) (v : Tracked) :
    ∀ m, lookup k m = none → lookup k (m ++ [(k, v)]) = some v := by
  intro m
  induction m with
  | nil => intro _; simp [lookup]
  | cons e rest ih =>
    intro h
    by_cases he : e.1 = k
    · rw [lookup, if_pos he] at h
      cases h
    · rw [lookup, if_neg he] at h
      rw [List.cons_append, lookup, if_neg he]
      exact ih h

/-- A key the `any` scan misses is absent for `lookup` as well. -/
theorem lookup_any_false (k : Int) :
    ∀ m : List (Int × Tracked), m.any (fun e => e.1 = k) = false → lookup k m = none := by
  intro m
  induction m with
  | nil => intro _; rfl
  | cons e rest ih =>
    intro h
    rw [List.any_cons, Bool.or_eq_false_iff] at h
    have he : ¬ e.1 = k := by simpa using h.1
    rw [lookup, if_neg he]
    exact ih h.2

/-- The in-place update pass of `dictSet` stores the new value. -/
theorem lookup_map_set (k : Int) (v : Tracked) :
    ∀ m : List (Int × Tracked), m.any (fun e => e.1 = k) = true →
      lookup k (m.map (fun e => if e.1 = k then (k, v) else e)) = some v := by
  intro m
  induction m with
  | nil => intro h; cases h
  | cons e rest ih =>
    intro h
    rw [List.map_cons]
    by_cases he : e.1 = k
    · rw [if_pos he, lookup, if_pos rfl]
    · rw [if_neg he, lookup, if_neg he]
      rw [List.any_cons, Bool.or_eq_true_iff] at h
      rcases h with h | h
      · exact absurd (by simpa using h) he
      · exact ih h

/-- Dict assignment stores the assigned value under the assigned key. -/
theorem lookup_dictSet_self (m : List (Int × Tracked)) (k : Int) (v : Tracked) :
    lookup k (dictSet m k v) = some v := by
  unfold dictSet
  by_cases h : m.any (fun e => e.1 = k)
  · rw [if_pos h]
    exact lookup_map_set k v m h
  · rw [if_neg h]
    exact lookup_append_right k v m
      (lookup_any_false k m (by simp only [Bool.not_eq_true] at h; exact h))

/-- The in-place update pass of `dictSet` leaves other keys alone. -/
theorem lookup_map_set_ne (k k2 : Int) (v : Tracked) (hk : k2 ≠ k) :
    ∀ m : List (Int × Tracked),
      lookup k2 (m.map (fun e => if e.1 = k then (k, v) else e)) = lookup k2 m := by
  intro m
  induction m with
  | nil => rfl
  | cons e rest ih =>
    rw [List.map_cons]
    by_cases he : e.1 = k
    · rw [if_pos he, lookup, lookup, if_neg (fun hh => hk hh.symm),
        if_neg (fun hh => hk (he ▸ hh).symm)]
      exact ih
    · rw [if_neg he, lookup, lookup]
      by_cases he2 : e.1 = k2
      · rw [if_pos he2, if_pos he2]
      · rw [if_neg he2, if_neg he2]
        exact ih

/-- Appending an entry with a different key leaves `lookup` unchanged. -/
theorem lookup_append_ne (k k2 : Int) (v : Tracked) (hk : k2 ≠ k) :
    ∀ m, lookup k2 (m ++ [(k, v)]) = lookup k2 m := by
  intro m
  induction m with
  | nil =>
    show lookup k2 [(k, v)] = none
    rw [lookup, if_neg (fun hh => hk hh.symm)]
    rfl
  | cons e rest ih =>
    rw [List.cons_append, lookup, lookup]
    by_cases he : e.1 = k2
    · rw [if_pos he, if_pos he]
    · rw [if_neg he, if_neg he]
      exact ih

/-- Dict assignment leaves other keys unchanged. -/
theorem lookup_dictSet_ne (m : List (Int × Tracked)) (k k2 : Int) (v : Tracked)
    (hk : k2 ≠ k) : lookup k2 (dictSet m k v) = lookup k2 m := by
  unfold dictSet
  by_cases h : m.any (fun e => e.1 = k)
  · rw [if_pos h]
    exact lookup_map_set_ne k k2 v hk m
  · rw [if_neg h]
    exact lookup_append_ne k k2 v hk m

/-- `track_step` only touches the key of the processed PR. -/
theorem lookup_track_step_other (m : List (Int × Tracked)) (p : PrInfo) (k : Int)
    (h : p.number ≠ k) : lookup k (track_step m p) = lookup k m := by
  unfold track_step
  split
  · exact lookup_dictSet_ne m p.number k _ (Ne.symm h)
  · split
    · exact lookup_dictSet_ne m p.number k _ (Ne.symm h)
    · exact lookup_dictSet_ne m p.number k _ (Ne.symm h)

/-- A PR not yet tracked is inserted with `notified = false`. -/
theorem lookup_track_step_new (m : List (Int × Tracked)) (p : PrInfo)
    (h : lookup p.number m = none) :
    lookup p.number (track_step m p) = some ⟨p.head_sha, p.title, false⟩ := by
  unfold track_step
  split
  · exact lookup_dictSet_self m p.number _
  · next t2 hl =>
    rw [h] at hl
    cases hl

/-- A tracked PR whose head sha changed is replaced with `notified = false`. -/
theorem lookup_track_step_changed (m : List (Int × Tracked)) (p : PrInfo)
    (t : Tracked) (h : lookup p.number m = some t) (hs : t.sha ≠ p.head_sha) :
    lookup p.number (track_step m p) = some ⟨p.head_sha, p.title, false⟩ := by
  unfold track_step
  split
  · next hl =>
    rw [h] at hl
    cases hl
  · next t2 hl =>
    rw [h] at hl
    injection hl with hl2
    subst hl2
    rw [if_pos hs]
    exact lookup_dictSet_self m p.number _

/-- A tracked PR with an unchanged head sha only gets its title refreshed. -/
theorem lookup_track_step_same (m : List (Int × Tracked)) (p : PrInfo)
    (t : Tracked) (h : lookup p.number m = some t) (hs : t.sha = p.head_sha) :
    lookup p.number (track_step m p) = some ⟨t.sha, p.title, t.notified⟩ := by
  unfold track_step
  split
  · next hl =>
    rw [h] at hl
    cases hl
  · next t2 hl =>
    rw [h] at hl
    injection hl with hl2
    subst hl2
    rw [if_neg (by simp [hs])]
    exact lookup_dictSet_self m p.number _

/-- Folding `track_step` over PRs with other numbers preserves a key. -/
theorem lookup_foldl_other (k : Int) :
    ∀ (prs : List PrInfo) (m : List (Int × Tracked)),
      (∀ q ∈ prs, q.number ≠ k) →
      lookup k (prs.foldl track_step m) = lookup k m := by
  intro prs
  induction prs with
  | nil => intro m _; rfl
  | cons p rest ih =>
    intro m h
    rw [List.foldl_cons, ih _ (fun q hq => h q (by simp [hq]))]
    exact lookup_track_step_other m p k (h p (by simp))

/-- The clean-up pass keeps keys that are still open. -/
theorem lookup_remove_closed_mem (current : List Int) (k : Int)
    (h : current.contains k = true) :
    ∀ m, lookup k (remove_closed m current) = lookup k m := by
  intro m
  induction m with
  | nil => rfl
  | cons e rest ih =>
    unfold remove_closed at ih ⊢
    rw [List.filter_cons]
    by_cases he : e.1 = k
    · rw [he, h]
      simp only [if_true, lookup, if_pos he]
    · by_cases hc : current.contains e.1 = true
      · rw [hc]
        simp only [if_true, lookup, if_neg he]
        exact ih
      · rw [Bool.not_eq_true] at hc
        rw [hc]
        simp only [Bool.false_eq_true, if_false, lookup, if_neg he]
        exact ih

/-- The clean-up pass deletes keys that are no longer open. -/
theorem lookup_remove_closed_not_mem (current : List Int) (k : Int)
    (h : current.contains k = false) :
    ∀ m, lookup k (remove_closed m current) = none := by
  intro m
  induction m with
  | nil => rfl
  | cons e rest ih =>
    unfold remove_closed at ih ⊢
    rw [List.filter_cons]
    by_cases he : e.1 = k
    · rw [he, h]
      simpa using ih
    · by_cases hc : current.contains e.1 = true
      · rw [hc]
        simp only [if_true, lookup, if_neg he]
        exact ih
      · rw [Bool.not_eq_true] at hc
        rw [hc]
        simpa using ih

/-- Entry agreement up to the `notified` flag: same key, sha and title. -/
def same_slot (e e2 : Int × Tracked) : Prop :=
  e.1 = e2.1 ∧ e.2.sha = e2.2.sha ∧ e.2.title = e2.2.title

/-- `same_slot` is reflexive, list-wise. -/
theorem same_slot_refl : ∀ l : List (Int × Tracked), List.Forall₂ same_slot l l := by
  intro l
  induction l with
  | nil => exact List.Forall₂.nil
  | cons e rest ih => exact List.Forall₂.cons ⟨rfl, rfl, rfl⟩ ih

/-- The evaluation loop can only flip `notified` flags: keys, shas and titles
of all entries are preserved, in order. -/
theorem evaluate_tracked_shape (cf : Int → Except ReqError CheckData)
    (so : SendResult) :
    ∀ m, List.Forall₂ same_slot m (evaluate_tracked cf so m).1 := by
  intro m
  induction m with
  | nil => exact List.Forall₂.nil
  | cons e rest ih =>
    obtain ⟨n, t⟩ := e
    by_cases hn : t.notified
    · simp only [evaluate_tracked, hn, if_true]
      exact List.Forall₂.cons ⟨rfl, rfl, rfl⟩ ih
    · rw [Bool.not_eq_true] at hn
      simp only [evaluate_tracked, hn, Bool.false_eq_true, if_false]
      cases hcf : check_and_notify n t.title (cf n) so with
      | error e2 => exact List.Forall₂.cons ⟨rfl, rfl, rfl⟩ (same_slot_refl rest)
      | ok out =>
        refine List.Forall₂.cons ⟨rfl, ?_, ?_⟩ ih
        · by_cases hc : out.completed <;> simp [hc]
        · by_cases hc : out.completed <;> simp [hc]

/-- `same_slot` agreement transfers an absent key. -/
theorem forall₂_lookup_none (k : Int) :
    ∀ {m m2 : List (Int × Tracked)}, List.Forall₂ same_slot m m2 →
      lookup k m = none → lookup k m2 = none := by
  intro m m2 hf
  induction hf with
  | nil => intro _; rfl
  | @cons a b l1 l2 he _ ih =>
    intro h
    obtain ⟨hk, _, _⟩ := he
    by_cases ha : a.1 = k
    · rw [lookup, if_pos ha] at h
      cases h
    · rw [lookup, if_neg ha] at h
      rw [lookup, if_neg (hk ▸ ha)]
      exact ih h

/-- `same_slot` agreement transfers a present key, preserving sha and title. -/
theorem forall₂_lookup_some (k : Int) :
    ∀ {m m2 : List (Int × Tracked)}, List.Forall₂ same_slot m m2 →
      ∀ {t : Tracked}, lookup k m = some t →
      ∃ t2, lookup k m2 = some t2 ∧ t2.sha = t.sha ∧ t2.title = t.title := by
  intro m m2 hf
  induction hf with
  | nil => intro t h; cases h
  | @cons a b l1 l2 he _ ih =>
    intro t h
    obtain ⟨hk, hs, htl⟩ := he
    by_cases ha : a.1 = k
    · rw [lookup, if_pos ha] at h
      refine ⟨b.2, ?_, ?_, ?_⟩
      · rw [lookup, if_pos (hk ▸ ha)]
      · rw [← hs]
        cases h
        rfl
      · rw [← htl]
        cases h
        rfl
    · rw [lookup, if_neg ha] at h
      rw [lookup, if_neg (hk ▸ ha)]
      exact ih h

/-- C8: for a tracked PR with `notified = true` and stored sha A, a
reconciliation cycle whose open-PR list reports sha B ≠ A for that number
(appearing once in the list) replaces the entry: stored sha becomes B with
`notified = false`, so a fresh Evaluator invocation is eligible. -/
theorem c8_theorem (m : List (Int × Tracked)) (l1 l2 : List PrInfo) (p : PrInfo)
    (nn : Int) (t : Tracked)
    (hm : lookup nn m = some t) (ht : t.notified = true)
    (hpn : p.number = nn) (hsha : p.head_sha ≠ t.sha)
    (hl1 : ∀ q ∈ l1, q.number ≠ nn) (hl2 : ∀ q ∈ l2, q.number ≠ nn) :
    lookup nn (reconcile m (l1 ++ p :: l2)) = some ⟨p.head_sha, p.title, false⟩ := by
  subst hpn
  unfold reconcile
  have hcur : (((l1 ++ p :: l2).map (fun q => q.number)).contains p.number) = true := by
    have hmem : p.number ∈ (l1 ++ p :: l2).map (fun q => q.number) :=
      List.mem_map.mpr ⟨p, by simp, rfl⟩
    simp [hmem]
  rw [lookup_remove_closed_mem _ _ hcur]
  rw [List.foldl_append, List.foldl_cons]
  rw [lookup_foldl_other p.number l2 _ hl2]
  have hbase : lookup p.number (l1.foldl track_step m) = some t := by
    rw [lookup_foldl_other p.number l1 m hl1]
    exact hm
  exact lookup_track_step_changed _ p t hbase (Ne.symm hsha)

/-- Witness for C8: PR 4 tracked as notified with sha `A`, reported with
sha `B`. -/
theorem c8_witness :
    lookup 4 (reconcile [(4, ⟨"A", "T", true⟩)] ([] ++ (⟨4, "B", "T2"⟩ : PrInfo) :: []))
      = some ⟨"B", "T2", false⟩ :=
  c8_theorem [(4, ⟨"A", "T", true⟩)] [] [] ⟨4, "B", "T2"⟩ 4 ⟨"A", "T", true⟩
    (by decide) rfl rfl (by decide) (by simp) (by simp)

/-- C7: starting from an empty mapping, after a first full cycle on open-PR
list `[1, 2]` and the second cycle's reconciliation against `[2, 3]` (PR 2's
sha unchanged), PR 1 is deleted, PR 3 is tracked with `notified = false`, and
PR 2's notified flag keeps the value it had after the first cycle. -/
theorem c7_theorem (p1 p2 q2 q3 : PrInfo)
    (cf1 : Int → Except ReqError CheckData) (so1 : SendResult)
    (h1 : p1.number = 1) (h2 : p2.number = 2)
    (hq2 : q2.number = 2) (hq3 : q3.number = 3)
    (hsha : q2.head_sha = p2.head_sha) :
    lookup 1 (reconcile (repo_cycle [] (.ok [p1, p2]) cf1 so1).1 [q2, q3]) = none
    ∧ lookup 3 (reconcile (repo_cycle [] (.ok [p1, p2]) cf1 so1).1 [q2, q3])
        = some ⟨q3.head_sha, q3.title, false⟩
    ∧ (lookup 2 (reconcile (repo_cycle [] (.ok [p1, p2]) cf1 so1).1 [q2, q3])).map
        (fun t => t.notified)
      = (lookup 2 (repo_cycle [] (.ok [p1, p2]) cf1 so1).1).map (fun t => t.notified) := by
  rw [show repo_cycle [] (.ok [p1, p2]) cf1 so1
      = evaluate_tracked cf1 so1 (reconcile [] [p1, p2]) from rfl]
  have e0_2 : lookup 2 (reconcile [] [p1, p2]) = some ⟨p2.head_sha, p2.title, false⟩ := by
    unfold reconcile
    have hcur : (([p1, p2].map (fun q => q.number)).contains (2 : Int)) = true := by
      show ([p1.number, p2.number].contains (2 : Int)) = true
      rw [h1, h2]
      decide
    rw [lookup_remove_closed_mem _ _ hcur]
    show lookup 2 (track_step (track_step [] p1) p2) = _
    rw [← h2]
    apply lookup_track_step_new
    rw [lookup_track_step_other [] p1 p2.number (by rw [h1, h2]; decide)]
    rfl
  have e0_3 : lookup 3 (reconcile [] [p1, p2]) = none := by
    unfold reconcile
    apply lookup_remove_closed_not_mem
    show ([p1.number, p2.number].contains (3 : Int)) = false
    rw [h1, h2]
    decide
  obtain ⟨t2, e1_2, hs2, ht2⟩ :=
    forall₂_lookup_some 2 (evaluate_tracked_shape cf1 so1 (reconcile [] [p1, p2])) e0_2
  have hs2b : t2.sha = p2.head_sha := hs2
  have e1_3 : lookup 3 (evaluate_tracked cf1 so1 (reconcile [] [p1, p2])).1 = none :=
    forall₂_lookup_none 3 (evaluate_tracked_shape cf1 so1 (reconcile [] [p1, p2])) e0_3
  refine ⟨?_, ?_, ?_⟩
  · unfold reconcile
    apply lookup_remove_closed_not_mem
    show ([q2.number, q3.number].contains (1 : Int)) = false
    rw [hq2, hq3]
    decide
  · unfold reconcile
    have hcur3 : (([q2, q3].map (fun q => q.number)).contains (3 : Int)) = true := by
      show ([q2.number, q3.number].contains (3 : Int)) = true
      rw [hq2, hq3]
      decide
    rw [lookup_remove_closed_mem _ _ hcur3]
    show lookup 3 (track_step (track_step
      (evaluate_tracked cf1 so1 (reconcile [] [p1, p2])).1 q2) q3) = _
    rw [← hq3]
    apply lookup_track_step_new
    rw [lookup_track_step_other _ q2 q3.number (by rw [hq2, hq3]; decide)]
    rw [hq3]
    exact e1_3
  · have g3a : lookup 2 (reconcile
        (evaluate_tracked cf1 so1 (reconcile [] [p1, p2])).1 [q2, q3])
        = some ⟨t2.sha, q2.title, t2.notified⟩ := by
      unfold reconcile
      have hcur2 : (([q2, q3].map (fun q => q.number)).contains (2 : Int)) = true := by
        show ([q2.number, q3.number].contains (2 : Int)) = true
        rw [hq2, hq3]
        decide
      rw [lookup_remove_closed_mem _ _ hcur2]
      show lookup 2 (track_step (track_step
        (evaluate_tracked cf1 so1 (reconcile [] [p1, p2])).1 q2) q3) = _
      rw [lookup_track_step_other _ q3 2 (by rw [hq3]; decide)]
      rw [← hq2]
      apply lookup_track_step_same
      · rw [hq2]
        exact e1_2
      · rw [hs2b]
        exact hsha.symm
    rw [g3a, e1_2]
    rfl

/-- Witness for C7 at concrete PR data (the Evaluator's check-runs fetch
fails, so no notified flag flips in cycle one). -/
theorem c7_witness :
    lookup 1 (reconcile (repo_cycle [] (.ok [⟨1, "s1", "t1"⟩, ⟨2, "s2", "t2"⟩])
        (fun _ => .error .network) .ok).1 [⟨2, "s2", "t2b"⟩, ⟨3, "s3", "t3"⟩]) = none
    ∧ lookup 3 (reconcile (repo_cycle [] (.ok [⟨1, "s1", "t1"⟩, ⟨2, "s2", "t2"⟩])
        (fun _ => .error .network) .ok).1 [⟨2, "s2", "t2b"⟩, ⟨3, "s3", "t3"⟩])
      = some ⟨"s3", "t3", false⟩
    ∧ (lookup 2 (reconcile (repo_cycle [] (.ok [⟨1, "s1", "t1"⟩, ⟨2, "s2", "t2"⟩])
        (fun _ => .error .network) .ok).1 [⟨2, "s2", "t2b"⟩, ⟨3, "s3", "t3"⟩])).map
        (fun t => t.notified)
      = (lookup 2 (repo_cycle [] (.ok [⟨1, "s1", "t1"⟩, ⟨2, "s2", "t2"⟩])
          (fun _ => .error .network) .ok).1).map (fun t => t.notified) :=
  c7_theorem ⟨1, "s1", "t1"⟩ ⟨2, "s2", "t2"⟩ ⟨2, "s2", "t2b"⟩ ⟨3, "s3", "t3"⟩
    (fun _ => .error .network) .ok rfl rfl rfl rfl rfl

end PrNotifier
